import Mathlib

/-!
Verification of the message composition-and-dispatch workflow of `src/app.py`
(a Streamlit WhatsApp-message agent).

The embedding is shallow: the pure string transforms are translated directly;
the Streamlit session state (`draft_message`, `history`) becomes an explicit
`ComposeState`; the Twilio network call and the OpenAI chat-completion call are
modelled by passing their outcome (`DispatchOutcome`, `ChatResponse`) as an
explicit input, while the requests the code would issue (dispatch-call
arguments, chat request parameters) are returned as data so that theorems can
talk about what was sent.

Python string primitives are modelled on `List Char`:
`py_strip` is `str.strip()` (drop leading and trailing whitespace) and
`py_startswith s p` is `s.startswith(p)`.
-/

/-- `str.strip()`: remove leading and trailing whitespace characters. -/
def py_strip (s : String) : String :=
  ⟨((s.data.dropWhile Char.isWhitespace).reverse.dropWhile Char.isWhitespace).reverse⟩

/-- `s.startswith(p)`: the characters of `p` are an initial segment of `s`. -/
def py_startswith (s p : String) : Bool :=
  p.data.isPrefixOf s.data

/-- `s.lower()` (the code only applies it to ASCII tone names). -/
def py_lower (s : String) : String :=
  ⟨s.data.map Char.toLower⟩

/-- Twilio configuration dict as built by `sidebar_config` (`app.py:62-66`):
keys `twilio_sid`, `twilio_token`, `twilio_from`. -/
structure TwilioCfg where
  twilio_sid : String
  twilio_token : String
  twilio_from : String
deriving DecidableEq, Repr

/-- Result of `require_twilio` (`app.py:70-84`): the function returns `False`
after showing either one missing-fields error or the channel-tag error, and
`True` otherwise.  `none` models the `True` return. -/
inductive TwilioError where
  | missingFields (fields : List String)
  | senderNotTagged
deriving DecidableEq, Repr

/-- The list `missing` built by `require_twilio` (`app.py:71-77`); Python's
`not cfg.get(k)` is the emptiness test on the string field. -/
def twilio_missing (cfg : TwilioCfg) : List String :=
  (if cfg.twilio_sid = "" then ["Account SID"] else []) ++
  (if cfg.twilio_token = "" then ["Auth Token"] else []) ++
  (if cfg.twilio_from = "" then ["WhatsApp From"] else [])

/-- `require_twilio` (`app.py:70-84`): report all missing fields at once and
return `False`; otherwise reject a `twilio_from` that does not start with
`"whatsapp:"`; otherwise succeed. -/
def require_twilio (cfg : TwilioCfg) : Option TwilioError :=
  let missing := twilio_missing cfg
  if missing ≠ [] then
    some (.missingFields missing)
  else if ¬ py_startswith cfg.twilio_from "whatsapp:" then
    some .senderNotTagged
  else
    none

/-- Result of `sanitize_whatsapp_to` (`app.py:87-94`).  The Python function
returns `None` on both failure branches; the two branches are distinguished
here because only the second shows an error message (`app.py:92`). -/
inductive SanitizeResult where
  | empty
  | missingCountryCode
  | ok (normalized : String)
deriving DecidableEq, Repr

/-- `sanitize_whatsapp_to` (`app.py:87-94`): strip, reject blank, reject a
number not starting with `'+'`, else produce `"whatsapp:" + num`. -/
def sanitize_whatsapp_to (number : String) : SanitizeResult :=
  let num := py_strip number
  if num = "" then
    .empty
  else if ¬ py_startswith num "+" then
    .missingCountryCode
  else
    .ok ("whatsapp:" ++ num)

/-! ### Helper lemmas about the list-level string primitives -/

theorem isPrefixOf_single_iff {a : Char} {l : List Char} :
    [a].isPrefixOf l = true ↔ ∃ t, l = a :: t := by
  cases l with
  | nil => simp [List.isPrefixOf]
  | cons b t =>
      simp only [List.isPrefixOf, List.isPrefixOf, Bool.and_eq_true, beq_iff_eq]
      constructor
      · rintro ⟨rfl, -⟩; exact ⟨t, rfl⟩
      · rintro ⟨t', ht⟩
        cases ht
        exact ⟨rfl, trivial⟩

theorem isPrefixOf_cons_imp {a : Char} {p l : List Char}
    (h : (a :: p).isPrefixOf l = true) : ∃ t, l = a :: t := by
  cases l with
  | nil => simp [List.isPrefixOf] at h
  | cons b t =>
      simp only [List.isPrefixOf, Bool.and_eq_true, beq_iff_eq] at h
      exact ⟨t, by rw [h.1]⟩

theorem string_ne_empty_of_data {s : String} {a : Char} {t : List Char}
    (h : s.data = a :: t) : s ≠ "" := by
  intro he
  rw [he] at h
  simp at h

/-- If a string starts with `'+'` it is nonempty and does not start with
`"whatsapp:"`; used to discharge `sanitize_whatsapp_to` branch conditions. -/
theorem startswith_plus_shape {s : String} (h : py_startswith s "+" = true) :
    s ≠ "" ∧ py_startswith s "whatsapp:" = false := by
  unfold py_startswith at h ⊢
  have hplus : ("+".data).isPrefixOf s.data = true := h
  have : ∃ t, s.data = '+' :: t := isPrefixOf_single_iff.mp hplus
  obtain ⟨t, ht⟩ := this
  refine ⟨string_ne_empty_of_data ht, ?_⟩
  rw [ht]
  show ('w' :: "hatsapp:".data).isPrefixOf ('+' :: t) = false
  simp [List.isPrefixOf]

/-- If a string starts with `"whatsapp:"` it is nonempty and does not start
with `'+'`. -/
theorem startswith_whatsapp_shape {s : String}
    (h : py_startswith s "whatsapp:" = true) :
    s ≠ "" ∧ py_startswith s "+" = false := by
  unfold py_startswith at h ⊢
  have : ∃ t, s.data = 'w' :: t := isPrefixOf_cons_imp h
  obtain ⟨t, ht⟩ := this
  refine ⟨string_ne_empty_of_data ht, ?_⟩
  rw [ht]
  simp [List.isPrefixOf]

theorem sanitize_ok_of_plus {n : String}
    (h : py_startswith (py_strip n) "+" = true) :
    sanitize_whatsapp_to n = .ok ("whatsapp:" ++ py_strip n) := by
  obtain ⟨hne, -⟩ := startswith_plus_shape h
  unfold sanitize_whatsapp_to
  simp [hne, h]

/-! ### Claim theorems for the Validator -/

/-- **C2.** `sanitize_whatsapp_to` trims its input and, for every input
string: fails with `Empty` when the trimmed input is blank; fails with
`MissingCountryCode` when the trimmed input does not start with `'+'`; and
otherwise succeeds returning exactly the trimmed input prefixed with the
channel tag `"whatsapp:"` — a pure string transform. -/
theorem sanitize_whatsapp_to_spec (number : String) :
    (py_strip number = "" → sanitize_whatsapp_to number = .empty) ∧
    (py_strip number ≠ "" → py_startswith (py_strip number) "+" = false →
      sanitize_whatsapp_to number = .missingCountryCode) ∧
    (py_startswith (py_strip number) "+" = true →
      sanitize_whatsapp_to number = .ok ("whatsapp:" ++ py_strip number)) := by
  refine ⟨?_, ?_, ?_⟩
  · intro h
    unfold sanitize_whatsapp_to
    simp [h]
  · intro hne hplus
    unfold sanitize_whatsapp_to
    simp [hne, hplus]
  · exact sanitize_ok_of_plus

theorem sanitize_whatsapp_to_spec_witness :
    sanitize_whatsapp_to "   " = .empty ∧
    sanitize_whatsapp_to " 5551234567 " = .missingCountryCode ∧
    sanitize_whatsapp_to " +15551234567 " = .ok "whatsapp:+15551234567" :=
  ⟨(sanitize_whatsapp_to_spec "   ").1 (by decide),
   (sanitize_whatsapp_to_spec " 5551234567 ").2.1 (by decide) (by decide),
   (sanitize_whatsapp_to_spec " +15551234567 ").2.2 (by decide)⟩

/-- **C7.** `sanitize_whatsapp_to "+15551234567" = "whatsapp:+15551234567"`,
and the function follows one consistent policy for already-tagged input: every
input whose trimmed form already carries the `"whatsapp:"` tag is rejected
(with `MissingCountryCode`, since it cannot start with `'+'`), so a
double-tagged value is never produced. -/
theorem sanitize_already_tagged_policy :
    sanitize_whatsapp_to "+15551234567" = .ok "whatsapp:+15551234567" ∧
    ∀ s : String, py_startswith (py_strip s) "whatsapp:" = true →
      sanitize_whatsapp_to s = .missingCountryCode := by
  constructor
  · decide
  · intro s h
    obtain ⟨hne, hplus⟩ := startswith_whatsapp_shape h
    unfold sanitize_whatsapp_to
    simp [hne, hplus]

theorem sanitize_already_tagged_policy_witness :
    sanitize_whatsapp_to "whatsapp:+15551234567" = .missingCountryCode :=
  sanitize_already_tagged_policy.2 "whatsapp:+15551234567" (by decide)

/-! ### Claim theorems for `require_twilio` -/

/-- **C4, counterexample.** The claim says `require_twilio` fails with
`SenderNotChannelTagged` whenever `senderAddress` lacks the `"whatsapp:"`
tag.  With `twilio_sid = ""` and `twilio_from = "+15551234567"` (untagged),
the code instead fails with the missing-fields error for the Account SID and
never reaches the tag check (`app.py:78-80` returns before `app.py:81`). -/
theorem require_twilio_priority_counterexample :
    py_startswith "+15551234567" "whatsapp:" = false ∧
    require_twilio ⟨"", "x", "+15551234567"⟩ =
      some (.missingFields ["Account SID"]) ∧
    require_twilio ⟨"", "x", "+15551234567"⟩ ≠ some .senderNotTagged := by
  decide

/-- **C4, amended.** `require_twilio` reports every missing field among
{Account SID, Auth Token, WhatsApp From} independently (all missing fields in
one report, not just the first); when all three fields are non-empty it fails
with the sender-not-channel-tagged error exactly if `twilio_from` lacks the
`"whatsapp:"` tag (missing-field reporting takes priority over the tag
check); and it succeeds exactly when all three fields are non-empty and
`twilio_from` starts with `"whatsapp:"`. -/
theorem require_twilio_reports_amended (cfg : TwilioCfg) :
    ((cfg.twilio_sid = "" ∨ cfg.twilio_token = "" ∨ cfg.twilio_from = "") →
      ∃ L, require_twilio cfg = some (.missingFields L) ∧
        (cfg.twilio_sid = "" ↔ "Account SID" ∈ L) ∧
        (cfg.twilio_token = "" ↔ "Auth Token" ∈ L) ∧
        (cfg.twilio_from = "" ↔ "WhatsApp From" ∈ L)) ∧
    (cfg.twilio_sid ≠ "" → cfg.twilio_token ≠ "" → cfg.twilio_from ≠ "" →
      py_startswith cfg.twilio_from "whatsapp:" = false →
      require_twilio cfg = some .senderNotTagged) ∧
    (require_twilio cfg = none ↔
      cfg.twilio_sid ≠ "" ∧ cfg.twilio_token ≠ "" ∧ cfg.twilio_from ≠ "" ∧
      py_startswith cfg.twilio_from "whatsapp:" = true) := by
  obtain ⟨s, t, f⟩ := cfg
  by_cases hs : s = "" <;> by_cases ht : t = "" <;> by_cases hf : f = "" <;>
    by_cases hw : py_startswith f "whatsapp:" = true <;>
    simp_all [require_twilio, twilio_missing]

theorem require_twilio_reports_amended_witness :
    (∃ L, require_twilio ⟨"", "", "whatsapp:+14155238886"⟩ =
        some (.missingFields L) ∧ "Account SID" ∈ L ∧ "Auth Token" ∈ L) ∧
    require_twilio ⟨"AC1", "tok", "+14155238886"⟩ = some .senderNotTagged ∧
    require_twilio ⟨"AC1", "tok", "whatsapp:+14155238886"⟩ = none := by
  refine ⟨?_, ?_, ?_⟩
  · obtain ⟨L, hL, h1, h2, h3⟩ :=
      (require_twilio_reports_amended ⟨"", "", "whatsapp:+14155238886"⟩).1
        (Or.inl rfl)
    exact ⟨L, hL, h1.mp rfl, h2.mp rfl⟩
  · exact (require_twilio_reports_amended ⟨"AC1", "tok", "+14155238886"⟩).2.1
      (by decide) (by decide) (by decide) (by decide)
  · exact
      (require_twilio_reports_amended ⟨"AC1", "tok", "whatsapp:+14155238886"⟩).2.2.mpr
      (by decide)

/-! ### Carrier dispatch and the send branch of `compose_ui` -/

/-- One record of `st.session_state.history` (`app.py:166`, `app.py:258-263`):
keys `to_display`, `to`, `body`, `sid`. -/
structure SentRecord where
  to_display : String
  to_ : String
  body : String
  sid : String
deriving DecidableEq, Repr

/-- Arguments of one `client.messages.create` invocation (`app.py:153-157`). -/
structure CallArgs where
  from_ : String
  to_ : String
  body : String
deriving DecidableEq, Repr

/-- Outcome of the Twilio interaction, supplied as an oracle to the shallow
embedding: the `twilio` import fails (`app.py:146-149`), the dispatch call
raises (`app.py:159-161`; the client constructor is modelled as non-failing,
any runtime failure being attributed to the `messages.create` call that the
same `try` block wraps), or `messages.create` returns a message with the
given `sid`. -/
inductive DispatchOutcome where
  | importError
  | exception (msg : String)
  | success (sid : String)
deriving DecidableEq, Repr

/-- What one run of `send_whatsapp_message` produces: the returned
`Optional[str]`, the `st.error` messages shown, and the list of
`messages.create` invocations attempted. -/
structure SendResult where
  sid : Option String
  errors : List String
  calls : List CallArgs
deriving DecidableEq, Repr

/-- `send_whatsapp_message` (`app.py:144-161`): `None` with an error message
on a failed import or a raised exception (the provider error is embedded in
an f-string), the message `sid` on success; at most one dispatch call is
attempted. -/
def send_whatsapp_message (cfg : TwilioCfg) (to_number body : String)
    (outcome : DispatchOutcome) : SendResult :=
  match outcome with
  | .importError =>
      ⟨none, ["Twilio library not installed. Run: pip install twilio"], []⟩
  | .exception e =>
      ⟨none, ["Failed to send WhatsApp message: " ++ e],
       [⟨cfg.twilio_from, to_number, body⟩]⟩
  | .success sid =>
      ⟨some sid, [], [⟨cfg.twilio_from, to_number, body⟩]⟩

/-- The session state touched by the send branch: `draft_message` and
`history` (`app.py:164-166`, `app.py:258-265`). -/
structure ComposeState where
  draft_message : String
  history : List SentRecord
deriving DecidableEq, Repr

/-- Observable result of one run of the send branch of `compose_ui`. -/
structure ComposeSendResult where
  state : ComposeState
  errors : List String
  success_msg : Option String
  calls : List CallArgs
deriving DecidableEq, Repr

/-- The `st.error` text `require_twilio` shows for each failure
(`app.py:79`, `app.py:82`). -/
def twilio_error_text : TwilioError → String
  | .missingFields fields => "Missing Twilio config: " ++ String.intercalate ", " fields
  | .senderNotTagged => "Twilio 'From' number must start with 'whatsapp:'."

/-- The send branch of `compose_ui` (`app.py:248-265`): validate the Twilio
configuration, sanitize the recipient, dispatch, and on a truthy returned
`sid` append one history record and clear the draft.  Python's `if sid:`
(`app.py:256`) is truthiness, i.e. `sid` present and non-empty. -/
def compose_send (cfg : TwilioCfg) (to_input message_text : String)
    (outcome : DispatchOutcome) (s : ComposeState) : ComposeSendResult :=
  match require_twilio cfg with
  | some err => ⟨s, [twilio_error_text err], none, []⟩
  | none =>
    match sanitize_whatsapp_to to_input with
    | .empty => ⟨s, [], none, []⟩
    | .missingCountryCode =>
        ⟨s, ["Recipient number must be in E.164 format starting with '+', e.g., +15551234567"],
         none, []⟩
    | .ok to_whatsapp =>
      let r := send_whatsapp_message cfg to_whatsapp (py_strip message_text) outcome
      match r.sid with
      | some sid =>
          if sid = "" then
            ⟨s, r.errors, none, r.calls⟩
          else
            ⟨⟨"", s.history ++
                [⟨py_strip to_input, to_whatsapp, py_strip message_text, sid⟩]⟩,
             r.errors, some ("Message sent! SID: " ++ sid), r.calls⟩
      | none => ⟨s, r.errors, none, r.calls⟩

/-! ### Helper lemmas about `compose_send` -/

theorem sanitize_not_ok_of_not_plus {n : String}
    (h : py_startswith (py_strip n) "+" = false) :
    sanitize_whatsapp_to n = .empty ∨
    sanitize_whatsapp_to n = .missingCountryCode := by
  unfold sanitize_whatsapp_to
  by_cases hne : py_strip n = ""
  · left; simp [hne]
  · right; simp [hne, h]

theorem compose_send_success_eq (cfg : TwilioCfg) (to_input msg sid : String)
    (s : ComposeState) (hreq : require_twilio cfg = none)
    (hto : py_startswith (py_strip to_input) "+" = true) (hsid : sid ≠ "") :
    compose_send cfg to_input msg (.success sid) s =
      ⟨⟨"", s.history ++ [⟨py_strip to_input, "whatsapp:" ++ py_strip to_input,
          py_strip msg, sid⟩]⟩,
       [], some ("Message sent! SID: " ++ sid),
       [⟨cfg.twilio_from, "whatsapp:" ++ py_strip to_input, py_strip msg⟩]⟩ := by
  unfold compose_send
  rw [hreq, sanitize_ok_of_plus hto]
  simp [send_whatsapp_message, hsid]

theorem compose_send_exception_eq (cfg : TwilioCfg) (to_input msg e : String)
    (s : ComposeState) (hreq : require_twilio cfg = none)
    (hto : py_startswith (py_strip to_input) "+" = true) :
    compose_send cfg to_input msg (.exception e) s =
      ⟨s, ["Failed to send WhatsApp message: " ++ e], none,
       [⟨cfg.twilio_from, "whatsapp:" ++ py_strip to_input, py_strip msg⟩]⟩ := by
  unfold compose_send
  rw [hreq, sanitize_ok_of_plus hto]
  simp [send_whatsapp_message]

theorem compose_send_importError_eq (cfg : TwilioCfg) (to_input msg : String)
    (s : ComposeState) (hreq : require_twilio cfg = none)
    (hto : py_startswith (py_strip to_input) "+" = true) :
    compose_send cfg to_input msg .importError s =
      ⟨s, ["Twilio library not installed. Run: pip install twilio"], none, []⟩ := by
  unfold compose_send
  rw [hreq, sanitize_ok_of_plus hto]
  simp [send_whatsapp_message]

/-! ### Claim theorems for the send branch -/

/-- **C1.** For a send attempt that reaches dispatch, a message is sent iff
the dispatch client returns a provider message identifier: on success exactly
one `SentRecord` carrying the dispatched body and the returned id is appended
to the history and the draft is reset to empty; on a dispatch exception or a
missing Twilio library, zero records are appended and the draft is left
unchanged. -/
theorem send_outcome_determines_record (cfg : TwilioCfg)
    (to_input msg sid e : String) (s : ComposeState)
    (hreq : require_twilio cfg = none)
    (hto : py_startswith (py_strip to_input) "+" = true) :
    (sid ≠ "" →
      (compose_send cfg to_input msg (.success sid) s).state =
        ⟨"", s.history ++ [⟨py_strip to_input, "whatsapp:" ++ py_strip to_input,
            py_strip msg, sid⟩]⟩) ∧
    (compose_send cfg to_input msg (.exception e) s).state = s ∧
    (compose_send cfg to_input msg .importError s).state = s := by
  refine ⟨?_, ?_, ?_⟩
  · intro hsid
    rw [compose_send_success_eq cfg to_input msg sid s hreq hto hsid]
  · rw [compose_send_exception_eq cfg to_input msg e s hreq hto]
  · rw [compose_send_importError_eq cfg to_input msg s hreq hto]

theorem send_outcome_determines_record_witness :
    (compose_send ⟨"AC1", "tok", "whatsapp:+14155238886"⟩ "+15551234567"
        " Hi Sam, see you Friday! " (.success "SM123") ⟨"old draft", []⟩).state =
      ⟨"", [⟨"+15551234567", "whatsapp:+15551234567",
            "Hi Sam, see you Friday!", "SM123"⟩]⟩ ∧
    (compose_send ⟨"AC1", "tok", "whatsapp:+14155238886"⟩ "+15551234567"
        " Hi Sam, see you Friday! " (.exception "boom") ⟨"old draft", []⟩).state =
      ⟨"old draft", []⟩ ∧
    (compose_send ⟨"AC1", "tok", "whatsapp:+14155238886"⟩ "+15551234567"
        " Hi Sam, see you Friday! " .importError ⟨"old draft", []⟩).state =
      ⟨"old draft", []⟩ := by
  have h := send_outcome_determines_record ⟨"AC1", "tok", "whatsapp:+14155238886"⟩
      "+15551234567" " Hi Sam, see you Friday! " "SM123" "boom" ⟨"old draft", []⟩
      (by decide) (by decide)
  exact ⟨(h.1 (by decide)).trans (by decide), h.2.1, h.2.2⟩

/-- **C3.** A send attempt whose recipient does not start with `'+'` after
trimming, or whose carrier configuration is invalid, never reaches the
dispatch client: no `messages.create` call is attempted and the session state
is unchanged. -/
theorem invalid_input_no_dispatch_call (cfg : TwilioCfg)
    (to_input msg : String) (outcome : DispatchOutcome) (s : ComposeState)
    (h : py_startswith (py_strip to_input) "+" = false ∨
         require_twilio cfg ≠ none) :
    (compose_send cfg to_input msg outcome s).calls = [] ∧
    (compose_send cfg to_input msg outcome s).state = s := by
  rcases hreq : require_twilio cfg with _ | err
  · rcases h with hto | hne
    · rcases sanitize_not_ok_of_not_plus hto with hsan | hsan <;>
        · unfold compose_send
          rw [hreq, hsan]
          exact ⟨rfl, rfl⟩
    · exact absurd hreq hne
  · unfold compose_send
    rw [hreq]
    exact ⟨rfl, rfl⟩

theorem invalid_input_no_dispatch_call_witness :
    ((compose_send ⟨"AC1", "tok", "whatsapp:+14155238886"⟩ "5551234567"
        "Hi" (.success "SM123") ⟨"d", []⟩).calls = [] ∧
      (compose_send ⟨"AC1", "tok", "whatsapp:+14155238886"⟩ "5551234567"
        "Hi" (.success "SM123") ⟨"d", []⟩).state = ⟨"d", []⟩) ∧
    ((compose_send ⟨"", "", ""⟩ "+15551234567"
        "Hi" (.success "SM123") ⟨"d", []⟩).calls = [] ∧
      (compose_send ⟨"", "", ""⟩ "+15551234567"
        "Hi" (.success "SM123") ⟨"d", []⟩).state = ⟨"d", []⟩) :=
  ⟨invalid_input_no_dispatch_call ⟨"AC1", "tok", "whatsapp:+14155238886"⟩
      "5551234567" "Hi" (.success "SM123") ⟨"d", []⟩ (Or.inl (by decide)),
   invalid_input_no_dispatch_call ⟨"", "", ""⟩
      "+15551234567" "Hi" (.success "SM123") ⟨"d", []⟩ (Or.inr (by decide))⟩

/-- **C5.** On a successful dispatch, the single carrier call carries
sender `cfg.twilio_from`, the `"whatsapp:"`-tagged trimmed recipient, and the
trimmed draft body verbatim; the appended `SentRecord` carries exactly that
body and the provider-returned id. -/
theorem dispatch_call_arguments_spec (cfg : TwilioCfg)
    (to_input msg sid : String) (s : ComposeState)
    (hreq : require_twilio cfg = none)
    (hto : py_startswith (py_strip to_input) "+" = true) (hsid : sid ≠ "") :
    (compose_send cfg to_input msg (.success sid) s).calls =
      [⟨cfg.twilio_from, "whatsapp:" ++ py_strip to_input, py_strip msg⟩] ∧
    (compose_send cfg to_input msg (.success sid) s).state.history =
      s.history ++ [⟨py_strip to_input, "whatsapp:" ++ py_strip to_input,
          py_strip msg, sid⟩] := by
  rw [compose_send_success_eq cfg to_input msg sid s hreq hto hsid]
  exact ⟨rfl, rfl⟩

theorem dispatch_call_arguments_spec_witness :
    (compose_send ⟨"AC1", "tok", "whatsapp:+14155238886"⟩ "+15551234567"
        "Hi Sam, see you Friday!" (.success "SM123") ⟨"d", []⟩).calls =
      [⟨"whatsapp:+14155238886", "whatsapp:+15551234567",
        "Hi Sam, see you Friday!"⟩] ∧
    (compose_send ⟨"AC1", "tok", "whatsapp:+14155238886"⟩ "+15551234567"
        "Hi Sam, see you Friday!" (.success "SM123") ⟨"d", []⟩).state.history =
      [⟨"+15551234567", "whatsapp:+15551234567",
        "Hi Sam, see you Friday!", "SM123"⟩] := by
  have h := dispatch_call_arguments_spec ⟨"AC1", "tok", "whatsapp:+14155238886"⟩
      "+15551234567" "Hi Sam, see you Friday!" "SM123" ⟨"d", []⟩
      (by decide) (by decide) (by decide)
  exact ⟨h.1.trans (by decide), h.2.trans (by decide)⟩

/-- **C9, counterexample.** The claim says the provider error message is
surfaced unmodified; the code shows
`f"Failed to send WhatsApp message: {e}"` (`app.py:160`), so for provider
error `"boom"` the surfaced text is not `"boom"`. -/
theorem dispatch_error_not_verbatim :
    (send_whatsapp_message ⟨"AC1", "tok", "whatsapp:+14155238886"⟩
        "whatsapp:+15551234567" "hi" (.exception "boom")).errors ≠ ["boom"] := by
  decide

/-- **C9, amended.** On a dispatch failure the provider error message is
surfaced embedded verbatim in the fixed wrapper
`"Failed to send WhatsApp message: " + e`; exactly one dispatch call was
attempted (no retry, no backoff), and nothing is marked sent: the session
state (draft and history) is unchanged and no success message is shown. -/
theorem dispatch_error_surfaced_amended (cfg : TwilioCfg)
    (to_input msg e : String) (s : ComposeState)
    (hreq : require_twilio cfg = none)
    (hto : py_startswith (py_strip to_input) "+" = true) :
    (compose_send cfg to_input msg (.exception e) s).errors =
      ["Failed to send WhatsApp message: " ++ e] ∧
    (compose_send cfg to_input msg (.exception e) s).calls.length = 1 ∧
    (compose_send cfg to_input msg (.exception e) s).state = s ∧
    (compose_send cfg to_input msg (.exception e) s).success_msg = none := by
  rw [compose_send_exception_eq cfg to_input msg e s hreq hto]
  exact ⟨rfl, rfl, rfl, rfl⟩

theorem dispatch_error_surfaced_amended_witness :
    (compose_send ⟨"AC1", "tok", "whatsapp:+14155238886"⟩ "+15551234567"
        "Hi" (.exception "boom") ⟨"d", []⟩).errors =
      ["Failed to send WhatsApp message: boom"] ∧
    (compose_send ⟨"AC1", "tok", "whatsapp:+14155238886"⟩ "+15551234567"
        "Hi" (.exception "boom") ⟨"d", []⟩).calls.length = 1 ∧
    (compose_send ⟨"AC1", "tok", "whatsapp:+14155238886"⟩ "+15551234567"
        "Hi" (.exception "boom") ⟨"d", []⟩).state = ⟨"d", []⟩ ∧
    (compose_send ⟨"AC1", "tok", "whatsapp:+14155238886"⟩ "+15551234567"
        "Hi" (.exception "boom") ⟨"d", []⟩).success_msg = none := by
  have h := dispatch_error_surfaced_amended ⟨"AC1", "tok", "whatsapp:+14155238886"⟩
      "+15551234567" "Hi" "boom" ⟨"d", []⟩ (by decide) (by decide)
  exact ⟨h.1.trans (by decide), h.2.1, h.2.2.1, h.2.2.2⟩

/-! ### History Log ordering -/

/-- The display order of `history_ui` (`app.py:174`): the history list is
enumerated with `reversed(...)`, most recent first. -/
def history_display (h : List SentRecord) : List SentRecord :=
  h.reverse

/-- One send attempt as driven by the form: configuration, raw recipient,
message text, and the dispatch outcome for this attempt. -/
structure SendEvent where
  cfg : TwilioCfg
  to_input : String
  message_text : String
  outcome : DispatchOutcome
deriving DecidableEq, Repr

/-- The `sid` carried by a successful outcome. -/
def outcome_sid : DispatchOutcome → String
  | .success sid => sid
  | _ => ""

/-- A send attempt that passes validation and whose dispatch succeeds with a
truthy `sid`. -/
def event_ok (ev : SendEvent) : Prop :=
  require_twilio ev.cfg = none ∧
  py_startswith (py_strip ev.to_input) "+" = true ∧
  (∃ sid, ev.outcome = .success sid ∧ sid ≠ "")

/-- The history record such an attempt appends (`app.py:258-263`). -/
def event_record (ev : SendEvent) : SentRecord :=
  ⟨py_strip ev.to_input, "whatsapp:" ++ py_strip ev.to_input,
   py_strip ev.message_text, outcome_sid ev.outcome⟩

/-- Run a sequence of send attempts through the send branch, threading the
session state. -/
def run_sends (evs : List SendEvent) (s : ComposeState) : ComposeState :=
  evs.foldl
    (fun st ev => (compose_send ev.cfg ev.to_input ev.message_text ev.outcome st).state)
    s

theorem run_sends_history (evs : List SendEvent) :
    ∀ s : ComposeState, (∀ ev ∈ evs, event_ok ev) →
      (run_sends evs s).history = s.history ++ evs.map event_record := by
  induction evs with
  | nil =>
      intro s _
      simp [run_sends]
  | cons ev rest ih =>
      intro s h
      obtain ⟨hreq, hto, sid, hout, hsid⟩ := h ev (List.mem_cons_self ev rest)
      have hstep : run_sends (ev :: rest) s =
          run_sends rest
            (compose_send ev.cfg ev.to_input ev.message_text ev.outcome s).state := rfl
      rw [hstep, hout,
        compose_send_success_eq ev.cfg ev.to_input ev.message_text sid s hreq hto hsid,
        ih _ (fun x hx => h x (List.mem_cons_of_mem ev hx))]
      simp [event_record, hout, outcome_sid]

/-- **C8.** The History Log is append-only across a sequence of successful
sends — each success appends exactly its record, with no eviction and no
deduplication — and `history_ui` displays the records in strictly
reverse-chronological order of appending: the displayed sequence is exactly
the reverse of the append order. -/
theorem history_reverse_chronological (evs : List SendEvent) (s : ComposeState)
    (h : ∀ ev ∈ evs, event_ok ev) :
    (run_sends evs s).history = s.history ++ evs.map event_record ∧
    (run_sends evs s).history.length = s.history.length + evs.length ∧
    history_display (run_sends evs s).history =
      (evs.map event_record).reverse ++ s.history.reverse := by
  have main := run_sends_history evs s h
  refine ⟨main, ?_, ?_⟩
  · rw [main]
    simp
  · rw [history_display, main]
    simp

theorem history_reverse_chronological_witness :
    (run_sends
        [⟨⟨"AC1", "tok", "whatsapp:+14155238886"⟩, "+15551234567", "Hi",
          .success "SM1"⟩,
         ⟨⟨"AC1", "tok", "whatsapp:+14155238886"⟩, "+15551234567", "Hi",
          .success "SM1"⟩,
         ⟨⟨"AC1", "tok", "whatsapp:+14155238886"⟩, "+16505550000", "Bye",
          .success "SM2"⟩]
        ⟨"d", []⟩).history =
      [⟨"+15551234567", "whatsapp:+15551234567", "Hi", "SM1"⟩,
       ⟨"+15551234567", "whatsapp:+15551234567", "Hi", "SM1"⟩,
       ⟨"+16505550000", "whatsapp:+16505550000", "Bye", "SM2"⟩] ∧
    history_display
        (run_sends
          [⟨⟨"AC1", "tok", "whatsapp:+14155238886"⟩, "+15551234567", "Hi",
            .success "SM1"⟩,
           ⟨⟨"AC1", "tok", "whatsapp:+14155238886"⟩, "+15551234567", "Hi",
            .success "SM1"⟩,
           ⟨⟨"AC1", "tok", "whatsapp:+14155238886"⟩, "+16505550000", "Bye",
            .success "SM2"⟩]
          ⟨"d", []⟩).history =
      [⟨"+16505550000", "whatsapp:+16505550000", "Bye", "SM2"⟩,
       ⟨"+15551234567", "whatsapp:+15551234567", "Hi", "SM1"⟩,
       ⟨"+15551234567", "whatsapp:+15551234567", "Hi", "SM1"⟩] := by
  have h := history_reverse_chronological
      [⟨⟨"AC1", "tok", "whatsapp:+14155238886"⟩, "+15551234567", "Hi",
        .success "SM1"⟩,
       ⟨⟨"AC1", "tok", "whatsapp:+14155238886"⟩, "+15551234567", "Hi",
        .success "SM1"⟩,
       ⟨⟨"AC1", "tok", "whatsapp:+14155238886"⟩, "+16505550000", "Bye",
        .success "SM2"⟩]
      ⟨"d", []⟩
      (by
        intro ev hev
        rcases List.mem_cons.mp hev with rfl | hev
        · exact ⟨by decide, by decide, "SM1", rfl, by decide⟩
        rcases List.mem_cons.mp hev with rfl | hev
        · exact ⟨by decide, by decide, "SM1", rfl, by decide⟩
        rcases List.mem_cons.mp hev with rfl | hev
        · exact ⟨by decide, by decide, "SM2", rfl, by decide⟩
        · simp at hev)
  refine ⟨h.1.trans (by decide), h.2.2.trans (by decide)⟩

/-! ### AI Drafting Service Client -/

/-- One chat message of the request (`app.py:113-116`, `app.py:134-137`). -/
structure ChatMessage where
  role : String
  content : String
deriving DecidableEq, Repr

/-- The chat-completion request as issued by `client.chat.completions.create`
(`app.py:111-119`, `app.py:132-140`).  The temperature literal is carried as
a rational (`0.7 = 7/10`, `0.5 = 1/2`). -/
structure ChatRequest where
  model : String
  messages : List ChatMessage
  temperature : ℚ
  max_tokens : ℕ
deriving DecidableEq, Repr

/-- One element of `response.choices`; `content` models
`choice.message.content`, which the provider may return as null. -/
structure Choice where
  content : Option String
deriving DecidableEq, Repr

/-- The provider response: its `choices` list. -/
structure ChatResponse where
  choices : List Choice
deriving DecidableEq, Repr

/-- Result of the Python expression
`(response.choices[0].message.content or "").strip()`: a returned string, or
a raised exception when `choices` is empty. -/
inductive AIOutcome where
  | ok (text : String)
  | raised (err : String)
deriving DecidableEq, Repr

/-- `tone_text` (`app.py:98`). -/
def tone_text (tone : String) : String :=
  if py_lower tone ≠ "custom" then tone else "custom tone"

/-- `emoji_pref` (`app.py:99`). -/
def emoji_pref (emoji : Bool) : String :=
  if emoji then "Include a subtle, relevant emoji." else "Do not include any emoji."

/-- The user prompt built by `generate_message_with_ai` (`app.py:100-110`). -/
def generate_user_prompt (brief tone extras : String) (emoji : Bool) : String :=
  "Goal/Context:\n" ++ py_strip brief ++ "\n\n" ++
  "Tone: " ++ tone_text tone ++ "\n" ++
  "Additional details/constraints:\n" ++ py_strip extras ++ "\n\n" ++
  "Instructions:\n" ++
  "- Write a single concise WhatsApp message (max 500 characters).\n" ++
  "- Be clear and natural, suitable for WhatsApp.\n" ++
  "- If it involves a request, include a simple call-to-action.\n" ++
  "- " ++ emoji_pref emoji ++ "\n" ++
  "- Return only the message text. No quotes, no markdown, no preface."

/-- The request issued by `generate_message_with_ai` (`app.py:111-119`). -/
def generate_request (brief tone extras : String) (emoji : Bool) : ChatRequest :=
  { model := "gpt-4",
    messages :=
      [⟨"system", "You are a helpful assistant that crafts concise, friendly WhatsApp messages."⟩,
       ⟨"user", generate_user_prompt brief tone extras emoji⟩],
    temperature := 7 / 10,
    max_tokens := 300 }

/-- `response.choices[0].message.content or ""`, stripped (`app.py:120`,
`app.py:141`): indexing an empty `choices` list raises `IndexError`. -/
def first_choice_text (resp : ChatResponse) : AIOutcome :=
  match resp.choices with
  | [] => .raised "IndexError: list index out of range"
  | c :: _ => .ok (py_strip (c.content.getD ""))

/-- `generate_message_with_ai` (`app.py:97-120`), as the request it issues and
the outcome it produces from the given provider response. -/
def generate_message_with_ai (brief tone extras : String) (emoji : Bool)
    (resp : ChatResponse) : ChatRequest × AIOutcome :=
  (generate_request brief tone extras emoji, first_choice_text resp)

/-- `shorten_instr` (`app.py:124`). -/
def shorten_instr (shorten : Bool) : String :=
  if shorten then "Shorten to be more concise but keep the key message."
  else "Keep roughly the same length."

/-- The user prompt built by `improve_message_with_ai` (`app.py:125-131`). -/
def improve_user_prompt (original tone : String) (shorten : Bool) : String :=
  "Rewrite the following WhatsApp message to improve clarity, tone, and flow.\n" ++
  "Desired tone: " ++ tone ++ "\n" ++
  shorten_instr shorten ++ "\n" ++
  "Return only the message text with no quotes or extra commentary.\n\n" ++
  "Message:\n" ++ py_strip original

/-- The request issued by `improve_message_with_ai` (`app.py:132-140`). -/
def improve_request (original tone : String) (shorten : Bool) : ChatRequest :=
  { model := "gpt-4",
    messages :=
      [⟨"system", "You are a helpful assistant that refines short WhatsApp messages."⟩,
       ⟨"user", improve_user_prompt original tone shorten⟩],
    temperature := 1 / 2,
    max_tokens := 300 }

/-- `improve_message_with_ai` (`app.py:123-141`). -/
def improve_message_with_ai (original tone : String) (shorten : Bool)
    (resp : ChatResponse) : ChatRequest × AIOutcome :=
  (improve_request original tone shorten, first_choice_text resp)

/-- **C6.** Both AI client operations use fixed generation parameters and
postprocessing: the generate-from-brief request has temperature `0.7`, a
300-token output cap, and a single system instruction framing the assistant
as a concise WhatsApp-message writer, and its prompt embeds the trimmed
brief, the tone label (`"custom tone"` for tone `"Custom"`, else the tone
name), the trimmed extras, and the emoji directive; the improve request has
temperature `0.5`, a 300-token cap, and embeds the shortening directive when
requested; both operations return the model text stripped of leading and
trailing whitespace, and the empty string when the provider returns no
content. -/
theorem ai_client_parameters_spec (brief tone extras : String) (emoji : Bool)
    (original tone2 : String) (shorten : Bool) :
    (generate_request brief tone extras emoji).temperature = 7 / 10 ∧
    (generate_request brief tone extras emoji).max_tokens = 300 ∧
    ((generate_request brief tone extras emoji).messages.filter
        (fun m => m.role == "system")) =
      [⟨"system", "You are a helpful assistant that crafts concise, friendly WhatsApp messages."⟩] ∧
    (∃ x y, generate_user_prompt brief tone extras emoji =
        x ++ py_strip brief ++ y) ∧
    (∃ x y, generate_user_prompt brief tone extras emoji =
        x ++ tone_text tone ++ y) ∧
    (∃ x y, generate_user_prompt brief tone extras emoji =
        x ++ py_strip extras ++ y) ∧
    (∃ x y, generate_user_prompt brief tone extras emoji =
        x ++ emoji_pref emoji ++ y) ∧
    tone_text "Custom" = "custom tone" ∧
    (∀ t ∈ ["Friendly", "Professional", "Formal", "Casual", "Apologetic",
            "Urgent", "Promotional"], tone_text t = t) ∧
    (improve_request original tone2 shorten).temperature = 1 / 2 ∧
    (improve_request original tone2 shorten).max_tokens = 300 ∧
    ((improve_request original tone2 shorten).messages.filter
        (fun m => m.role == "system")) =
      [⟨"system", "You are a helpful assistant that refines short WhatsApp messages."⟩] ∧
    (∃ x y, improve_user_prompt original tone2 shorten =
        x ++ shorten_instr shorten ++ y) ∧
    shorten_instr true = "Shorten to be more concise but keep the key message." ∧
    (∀ txt, (generate_message_with_ai brief tone extras emoji
        ⟨[⟨some txt⟩]⟩).2 = .ok (py_strip txt)) ∧
    (generate_message_with_ai brief tone extras emoji ⟨[⟨none⟩]⟩).2 = .ok "" ∧
    (∀ txt, (improve_message_with_ai original tone2 shorten
        ⟨[⟨some txt⟩]⟩).2 = .ok (py_strip txt)) ∧
    (improve_message_with_ai original tone2 shorten ⟨[⟨none⟩]⟩).2 = .ok "" := by
  refine ⟨rfl, rfl, rfl, ?_, ?_, ?_, ?_, by decide, by decide,
          rfl, rfl, rfl, ?_, by decide,
          fun txt => rfl, rfl, fun txt => rfl, rfl⟩
  · refine ⟨"Goal/Context:\n",
      "\n\n" ++ "Tone: " ++ tone_text tone ++ "\n" ++
      "Additional details/constraints:\n" ++ py_strip extras ++ "\n\n" ++
      "Instructions:\n" ++
      "- Write a single concise WhatsApp message (max 500 characters).\n" ++
      "- Be clear and natural, suitable for WhatsApp.\n" ++
      "- If it involves a request, include a simple call-to-action.\n" ++
      "- " ++ emoji_pref emoji ++ "\n" ++
      "- Return only the message text. No quotes, no markdown, no preface.", ?_⟩
    simp [generate_user_prompt, String.append_assoc]
  · refine ⟨"Goal/Context:\n" ++ py_strip brief ++ "\n\n" ++ "Tone: ",
      "\n" ++
      "Additional details/constraints:\n" ++ py_strip extras ++ "\n\n" ++
      "Instructions:\n" ++
      "- Write a single concise WhatsApp message (max 500 characters).\n" ++
      "- Be clear and natural, suitable for WhatsApp.\n" ++
      "- If it involves a request, include a simple call-to-action.\n" ++
      "- " ++ emoji_pref emoji ++ "\n" ++
      "- Return only the message text. No quotes, no markdown, no preface.", ?_⟩
    simp [generate_user_prompt, String.append_assoc]
  · refine ⟨"Goal/Context:\n" ++ py_strip brief ++ "\n\n" ++ "Tone: " ++
      tone_text tone ++ "\n" ++ "Additional details/constraints:\n",
      "\n\n" ++
      "Instructions:\n" ++
      "- Write a single concise WhatsApp message (max 500 characters).\n" ++
      "- Be clear and natural, suitable for WhatsApp.\n" ++
      "- If it involves a request, include a simple call-to-action.\n" ++
      "- " ++ emoji_pref emoji ++ "\n" ++
      "- Return only the message text. No quotes, no markdown, no preface.", ?_⟩
    simp [generate_user_prompt, String.append_assoc]
  · refine ⟨"Goal/Context:\n" ++ py_strip brief ++ "\n\n" ++ "Tone: " ++
      tone_text tone ++ "\n" ++ "Additional details/constraints:\n" ++
      py_strip extras ++ "\n\n" ++
      "Instructions:\n" ++
      "- Write a single concise WhatsApp message (max 500 characters).\n" ++
      "- Be clear and natural, suitable for WhatsApp.\n" ++
      "- If it involves a request, include a simple call-to-action.\n" ++
      "- ",
      "\n" ++ "- Return only the message text. No quotes, no markdown, no preface.", ?_⟩
    simp [generate_user_prompt, String.append_assoc]
  · refine ⟨"Rewrite the following WhatsApp message to improve clarity, tone, and flow.\n" ++
      "Desired tone: " ++ tone2 ++ "\n",
      "\n" ++ "Return only the message text with no quotes or extra commentary.\n\n" ++
      "Message:\n" ++ py_strip original, ?_⟩
    simp [improve_user_prompt, String.append_assoc]

theorem ai_client_parameters_spec_witness :
    (generate_request "remind Sam about Friday lunch" "Friendly" "" false).temperature = 7 / 10 ∧
    tone_text "Professional" = "Professional" ∧
    tone_text "Custom" = "custom tone" ∧
    (generate_message_with_ai "remind Sam about Friday lunch" "Friendly" "" false
        ⟨[⟨some "  See you Friday!  "⟩]⟩).2 = .ok "See you Friday!" ∧
    (improve_message_with_ai "hello there" "Friendly" true ⟨[⟨none⟩]⟩).2 = .ok "" := by
  obtain ⟨h1, h2, h3, h4, h5, h6, h7, h8, h9, h10, h11, h12, h13, h14,
          h15, h16, h17, h18⟩ :=
    ai_client_parameters_spec "remind Sam about Friday lunch" "Friendly" ""
      false "hello there" "Friendly" true
  exact ⟨h1, h9 "Professional" (by decide), h8,
         (h15 "  See you Friday!  ").trans (by decide), h18⟩

/-- **C10.** Both AI client operations index `response.choices[0]`
unconditionally: for every provider response whose `choices` list is empty
the operation raises (an `IndexError`, propagated to the caller's
`try/except` and surfaced as a generation failure) instead of returning a
string; the documented empty-string behaviour only covers a null message
content. -/
theorem empty_choices_raises (brief tone extras : String) (emoji : Bool)
    (original tone2 : String) (shorten : Bool) (resp : ChatResponse)
    (h : resp.choices = []) :
    (generate_message_with_ai brief tone extras emoji resp).2 =
      .raised "IndexError: list index out of range" ∧
    (improve_message_with_ai original tone2 shorten resp).2 =
      .raised "IndexError: list index out of range" ∧
    (generate_message_with_ai brief tone extras emoji ⟨[⟨none⟩]⟩).2 = .ok "" ∧
    (improve_message_with_ai original tone2 shorten ⟨[⟨none⟩]⟩).2 = .ok "" := by
  obtain ⟨cs⟩ := resp
  cases h
  exact ⟨rfl, rfl, rfl, rfl⟩

theorem empty_choices_raises_witness :
    (generate_message_with_ai "brief" "Friendly" "" false ⟨[]⟩).2 =
      .raised "IndexError: list index out of range" ∧
    (improve_message_with_ai "msg" "Friendly" false ⟨[]⟩).2 =
      .raised "IndexError: list index out of range" :=
  ⟨(empty_choices_raises "brief" "Friendly" "" false "msg" "Friendly" false
      ⟨[]⟩ rfl).1,
   (empty_choices_raises "brief" "Friendly" "" false "msg" "Friendly" false
      ⟨[]⟩ rfl).2.1⟩
